import Mathlib

/-!
Shallow embedding of the Sub-Domains-Manager deployment orchestration:
the Cloudflare DNS adapter (`services/cloudflare.ts`), the Coolify
deployment adapter (`services/coolify.ts`) and the client routes
(create / deploy / undeploy in the compiled `routes/clients.js`).

External HTTP calls are modelled by oracle values supplied in a "world"
record: each field is the `Except`-result that the corresponding axios
call would produce in one concrete execution.  Route handlers become
pure functions from the client record and the world to a result record
that carries the HTTP-level response kind, the persisted `isDeployed`
flag, and the trace of provider calls that were issued.
-/

/-- One axios error, as the two `handleError` methods observe it:
`response?.status`, `data?.errors?.[0]?.message` (read by Cloudflare),
`data?.message` (read by Coolify), `error.message`, and the raw body. -/
structure AxiosErr where
  status : Option Nat
  dataErrorsMsg : Option String
  dataMessage : Option String
  errMessage : String
  body : Option String
deriving DecidableEq

/-- Error thrown by `CloudflareAPI` (message, code, status, details). -/
structure CfError where
  message : String
  code : String
  status : Option Nat
  details : Option String
deriving DecidableEq

/-- Error thrown by `CoolifyAPI` (message, code, status, response body). -/
structure CoolifyError where
  message : String
  code : String
  status : Option Nat
  response : Option String
deriving DecidableEq

/-- JavaScript `a || b` on an optional string: empty string is falsy. -/
def orElseStr (o : Option String) (d : String) : String :=
  match o with
  | some s => if s = "" then d else s
  | none => d

/-- `CloudflareAPI.handleError`: switch on the HTTP status.  `none`
models a non-axios error reaching the final `throw`. -/
def cloudflareHandleError (e : Option AxiosErr) : CfError :=
  match e with
  | some a =>
    if a.status = some 401 then
      ⟨"Invalid API credentials", "UNAUTHORIZED", a.status, none⟩
    else if a.status = some 403 then
      ⟨"Access forbidden. Check API permissions", "FORBIDDEN", a.status, none⟩
    else if a.status = some 404 then
      ⟨"Resource not found", "NOT_FOUND", a.status, a.body⟩
    else if a.status = some 429 then
      ⟨"Rate limit exceeded", "RATE_LIMIT", a.status, none⟩
    else
      ⟨orElseStr a.dataErrorsMsg "An error occurred with the Cloudflare API",
       "API_ERROR", a.status, a.body⟩
  | none => ⟨"An unexpected error occurred", "UNKNOWN_ERROR", some 500, none⟩

/-- `CoolifyAPI.handleError` on an axios error: always code
`API_ERROR`, message `context: data?.message || error.message || ...`,
status passed through unchanged. -/
def coolifyHandleError (context : String) (e : Option AxiosErr) : CoolifyError :=
  match e with
  | some a =>
    ⟨context ++ ": " ++
       orElseStr a.dataMessage
         (orElseStr (some a.errMessage) "An error occurred with the Coolify API"),
     "API_ERROR", a.status, a.body⟩
  | none => ⟨context ++ ": An unexpected error occurred", "UNKNOWN_ERROR", some 500, none⟩

/-- `CoolifyAPI.handleError` on a non-axios error (e.g. a rethrown
`CoolifyAPIError`): `context: error.message || ...`, `UNKNOWN_ERROR`, 500. -/
def coolifyHandleNonAxios (context msg : String) : CoolifyError :=
  ⟨context ++ ": " ++ orElseStr (some msg) "An unexpected error occurred",
   "UNKNOWN_ERROR", some 500, none⟩

/-- One DNS record as returned by the Cloudflare list endpoint. -/
structure DnsRecord where
  id : String
  name : String
  rtype : String
deriving DecidableEq

/-- Provider-side filtering of the record list by
`params: { name: fqdn, type: 'A' }` on the list-records endpoint. -/
def listDnsRecords (all : List DnsRecord) (fqdn : String) : List DnsRecord :=
  all.filter (fun r => r.name == fqdn && r.rtype == "A")

/-- The `INVALID_PARAMETER` error thrown when `subdomain` is falsy. -/
def cfInvalidParameter : CfError :=
  ⟨"Subdomain is required", "INVALID_PARAMETER", none, none⟩

/-- `CloudflareAPI.checkSubdomainAvailability`: list matching records;
available iff `result.length === 0`.  `listResult` is the outcome of the
GET request. -/
def checkSubdomainAvailability (subdomain : String)
    (listResult : Except AxiosErr (List DnsRecord)) : Except CfError Bool :=
  if subdomain == "" then .error cfInvalidParameter
  else
    match listResult with
    | .error a => .error (cloudflareHandleError (some a))
    | .ok recs => .ok (recs.length == 0)

/-- `CloudflareAPI.createSubdomainRecord`: POST the A record. -/
def createSubdomainRecord (subdomain : String)
    (postResult : Except AxiosErr Unit) : Except CfError Unit :=
  if subdomain == "" then .error cfInvalidParameter
  else
    match postResult with
    | .error a => .error (cloudflareHandleError (some a))
    | .ok _ => .ok ()

/-- `CloudflareAPI.deleteSubdomainRecord`: list matching records; if any
exist, DELETE the first one's id; an empty list is a no-op success. -/
def deleteSubdomainRecord (subdomain : String)
    (listResult : Except AxiosErr (List DnsRecord))
    (deleteResult : Except AxiosErr Unit) : Except CfError Unit :=
  if subdomain == "" then .error cfInvalidParameter
  else
    match listResult with
    | .error a => .error (cloudflareHandleError (some a))
    | .ok recs =>
      if recs.length > 0 then
        match deleteResult with
        | .error a => .error (cloudflareHandleError (some a))
        | .ok _ => .ok ()
      else .ok ()

/-- Base64 alphabet: index 0-63 to character. -/
def tab (n : Nat) : Char :=
  if n < 26 then Char.ofNat (65 + n)
  else if n < 52 then Char.ofNat (97 + (n - 26))
  else if n < 62 then Char.ofNat (48 + (n - 52))
  else if n = 62 then '+'
  else '/'

/-- Base64 alphabet inverse: character to index, `none` off-alphabet. -/
def detab (c : Char) : Option Nat :=
  if 'A' ≤ c ∧ c ≤ 'Z' then some (c.toNat - 65)
  else if 'a' ≤ c ∧ c ≤ 'z' then some (c.toNat - 97 + 26)
  else if '0' ≤ c ∧ c ≤ '9' then some (c.toNat - 48 + 52)
  else if c = '+' then some 62
  else if c = '/' then some 63
  else none

/-- `Buffer.from(s, 'utf8').toString('base64')` over the UTF-8 bytes:
3-byte groups become 4 alphabet characters, with `=` padding. -/
def base64Encode : List Nat → List Char
  | [] => []
  | [a] => [tab (a / 4), tab (a % 4 * 16), '=', '=']
  | [a, b] => [tab (a / 4), tab (a % 4 * 16 + b / 16), tab (b % 16 * 4), '=']
  | a :: b :: c :: rest =>
      tab (a / 4) :: tab (a % 4 * 16 + b / 16) :: tab (b % 16 * 4 + c / 64) ::
        tab (c % 64) :: base64Encode rest

/-- Standard base64 decoding, the mathematical inverse used to state the
round-trip property of the encoder. -/
def base64Decode : List Char → Option (List Nat)
  | [] => some []
  | c1 :: c2 :: c3 :: c4 :: rest =>
      (detab c1).bind fun w =>
      (detab c2).bind fun x =>
      if c3 = '=' then
        if c4 = '=' ∧ rest = [] then some [w * 4 + x / 16] else none
      else
        (detab c3).bind fun y =>
        if c4 = '=' then
          if rest = [] then some [w * 4 + x / 16, x % 16 * 16 + y / 4] else none
        else
          (detab c4).bind fun z =>
          (base64Decode rest).map fun bs =>
            (w * 4 + x / 16) :: (x % 16 * 16 + y / 4) :: (y % 4 * 64 + z) :: bs
  | _ => none

theorem detab_tab : ∀ n : Nat, n < 64 → detab (tab n) = some n := by decide

theorem tab_ne_pad : ∀ n : Nat, n < 64 → tab n ≠ '=' := by decide

theorem base64Decode_cons (c1 c2 c3 c4 : Char) (rest : List Char) :
    base64Decode (c1 :: c2 :: c3 :: c4 :: rest) =
      ((detab c1).bind fun w =>
      (detab c2).bind fun x =>
      if c3 = '=' then
        if c4 = '=' ∧ rest = [] then some [w * 4 + x / 16] else none
      else
        (detab c3).bind fun y =>
        if c4 = '=' then
          if rest = [] then some [w * 4 + x / 16, x % 16 * 16 + y / 4] else none
        else
          (detab c4).bind fun z =>
          (base64Decode rest).map fun bs =>
            (w * 4 + x / 16) :: (x % 16 * 16 + y / 4) :: (y % 4 * 64 + z) :: bs) := rfl

/-- Decoding inverts encoding on genuine byte lists. -/
theorem base64_roundtrip :
    ∀ bs : List Nat, (∀ b ∈ bs, b < 256) →
      base64Decode (base64Encode bs) = some bs
  | [], _ => rfl
  | [a], h => by
      have ha : a < 256 := h a (by simp)
      rw [show base64Encode [a] = [tab (a / 4), tab (a % 4 * 16), '=', '='] from rfl]
      rw [base64Decode_cons, detab_tab (a / 4) (by omega), detab_tab (a % 4 * 16) (by omega)]
      simp
      omega
  | [a, b], h => by
      have ha : a < 256 := h a (by simp)
      have hb : b < 256 := h b (by simp)
      rw [show base64Encode [a, b] =
        [tab (a / 4), tab (a % 4 * 16 + b / 16), tab (b % 16 * 4), '='] from rfl]
      rw [base64Decode_cons, detab_tab (a / 4) (by omega),
        detab_tab (a % 4 * 16 + b / 16) (by omega)]
      simp only [Option.some_bind']
      rw [if_neg (tab_ne_pad (b % 16 * 4) (by omega))]
      rw [detab_tab (b % 16 * 4) (by omega)]
      simp only [Option.some_bind']
      simp
      constructor <;> omega
  | a :: b :: c :: rest, h => by
      have ha : a < 256 := h a (by simp)
      have hb : b < 256 := h b (by simp)
      have hc : c < 256 := h c (by simp)
      have ih := base64_roundtrip rest (fun x hx =>
        h x (List.mem_cons_of_mem _ (List.mem_cons_of_mem _ (List.mem_cons_of_mem _ hx))))
      rw [show base64Encode (a :: b :: c :: rest) =
        tab (a / 4) :: tab (a % 4 * 16 + b / 16) :: tab (b % 16 * 4 + c / 64) ::
          tab (c % 64) :: base64Encode rest from rfl]
      rw [base64Decode_cons, detab_tab (a / 4) (by omega),
        detab_tab (a % 4 * 16 + b / 16) (by omega)]
      simp only [Option.some_bind']
      rw [if_neg (tab_ne_pad (b % 16 * 4 + c / 64) (by omega))]
      rw [detab_tab (b % 16 * 4 + c / 64) (by omega)]
      simp only [Option.some_bind']
      rw [if_neg (tab_ne_pad (c % 64) (by omega))]
      rw [detab_tab (c % 64) (by omega)]
      simp only [Option.some_bind', ih]
      simp
      refine ⟨by omega, by omega, by omega⟩

/-- One value inside the client-data object sent to the template. -/
inductive FieldVal
  | str : String → FieldVal
  | bytes : List Nat → FieldVal
  | null : FieldVal
deriving DecidableEq

/-- JavaScript `clientData.logo || null`. -/
def jsOrNull (o : Option String) : FieldVal :=
  match o with
  | some s => if s = "" then .null else .str s
  | none => .null

/-- The `clientData` payload the routes assemble from a client record:
name, description, links, customization, logo, deploymentType, htmlCode.
`links`/`customization` are opaque serialized values; `htmlCode` is the
raw HTML as its list of UTF-8 bytes (`none` = property absent). -/
structure ClientData where
  name : String
  description : String
  links : String
  customization : String
  logo : Option String
  deploymentType : String
  htmlCode : Option (List Nat)
deriving DecidableEq

/-- `clientDataWithLogo = { ...clientData, logo: clientData.logo || null }`
as a JavaScript object: an ordered key-value list. -/
def clientObjWithLogo (cd : ClientData) : List (String × FieldVal) :=
  [("name", .str cd.name), ("description", .str cd.description),
   ("links", .str cd.links), ("customization", .str cd.customization),
   ("logo", jsOrNull cd.logo), ("deploymentType", .str cd.deploymentType)]
  ++ (match cd.htmlCode with
      | some h => [("htmlCode", FieldVal.bytes h)]
      | none => [])

/-- Rest-destructuring `const { htmlCode, ...clientDataForEnv } = clientDataWithLogo`:
every property except `htmlCode` survives. -/
def clientDataForEnv (cd : ClientData) : List (String × FieldVal) :=
  (clientObjWithLogo cd).filter (fun kv => !(kv.1 == "htmlCode"))

/-- The value of one environment variable: the JSON serialization of an
object, a plain string, or a base64 character string. -/
inductive EnvValue
  | json : List (String × FieldVal) → EnvValue
  | str : String → EnvValue
  | b64 : List Char → EnvValue
deriving DecidableEq

/-- One entry of the bulk `PATCH .../envs/bulk` body. -/
structure EnvVar where
  key : String
  value : EnvValue
  is_literal : Bool
deriving DecidableEq

/-- JavaScript whitespace stripped by `String.prototype.trim`. -/
def isWsB (b : Nat) : Bool :=
  b == 32 || b == 9 || b == 10 || b == 13 || b == 11 || b == 12

/-- `String.prototype.trim` over UTF-8 bytes. -/
def jsTrim (bs : List Nat) : List Nat :=
  ((bs.dropWhile isWsB).reverse.dropWhile isWsB).reverse

/-- The `envVariables` array built in `CoolifyAPI.createDeployment`:
`CLIENT_DATA`, `NODE_ENV=production` and `NEXT_PUBLIC_CLIENT_DATA`,
plus `NEXT_PUBLIC_CUSTOM_HTML_BASE64` when
`clientData.htmlCode && clientData.htmlCode.trim()` is truthy. -/
def createEnvVars (cd : ClientData) : List EnvVar :=
  [⟨"CLIENT_DATA", .json (clientDataForEnv cd), true⟩,
   ⟨"NODE_ENV", .str "production", true⟩,
   ⟨"NEXT_PUBLIC_CLIENT_DATA", .json (clientDataForEnv cd), true⟩]
  ++ (match cd.htmlCode with
      | some h =>
        if !h.isEmpty && !(jsTrim h).isEmpty then
          [⟨"NEXT_PUBLIC_CUSTOM_HTML_BASE64", .b64 (base64Encode h), true⟩]
        else []
      | none => [])

/-- The `envVariables` array built in `CoolifyAPI.updateDeployment`
(source-level duplicate of the construction in `createDeployment`). -/
def updateEnvVars (cd : ClientData) : List EnvVar :=
  [⟨"CLIENT_DATA", .json (clientDataForEnv cd), true⟩,
   ⟨"NODE_ENV", .str "production", true⟩,
   ⟨"NEXT_PUBLIC_CLIENT_DATA", .json (clientDataForEnv cd), true⟩]
  ++ (match cd.htmlCode with
      | some h =>
        if !h.isEmpty && !(jsTrim h).isEmpty then
          [⟨"NEXT_PUBLIC_CUSTOM_HTML_BASE64", .b64 (base64Encode h), true⟩]
        else []
      | none => [])

/-- Decidable equality for `Except` outcomes. -/
instance {e a : Type} [DecidableEq e] [DecidableEq a] : DecidableEq (Except e a) := fun x y =>
  match x, y with
  | .error u, .error v =>
    if h : u = v then isTrue (by rw [h]) else isFalse (fun he => h (Except.error.inj he))
  | .ok u, .ok v =>
    if h : u = v then isTrue (by rw [h]) else isFalse (fun he => h (Except.ok.inj he))
  | .error _, .ok _ => isFalse (fun he => Except.noConfusion he)
  | .ok _, .error _ => isFalse (fun he => Except.noConfusion he)

/-- One Coolify application as listed by `GET /api/v1/applications`. -/
structure App where
  uuid : String
  name : String
deriving DecidableEq

/-- JavaScript truthiness of an optional environment string. -/
def present (o : Option String) : Bool :=
  match o with
  | some s => !(s == "")
  | none => false

/-- The `process.env` configuration `CoolifyAPI.createDeployment` reads. -/
structure CoolifyConfig where
  templateRepo : Option String
  projectId : Option String
  environmentId : Option String
  serverId : Option String
deriving DecidableEq

/-- Outcomes of the axios calls one `CoolifyAPI` deployment makes. -/
structure CoolifyWorld where
  apps : Except AxiosErr (List App)
  createResp : Except AxiosErr (Option String)
  envPatch : Except AxiosErr Unit
  trigger : Except AxiosErr Unit
deriving DecidableEq

/-- Trace of externally visible provider calls. -/
inductive Call
  | dnsCheck
  | dnsCreateRec
  | coListApps
  | coCreateApp
  | coSetEnv (vars : List EnvVar)
  | coTrigger
  | dnsCompList
  | dnsCompDelete
  | dnsDelPhase
  | coDelPhase
deriving DecidableEq

/-- `CoolifyAPI.findApplicationByName`: list all applications and take
the exact-name match; any listing error is caught and becomes `null`. -/
def findApplicationByName (apps : Except AxiosErr (List App)) (name : String) : Option App :=
  match apps with
  | .error _ => none
  | .ok l => l.find? (fun a => a.name == name)

/-- Deployment phase of `CoolifyAPI.createDeployment` after an
application id has been resolved: bulk env replace, then trigger deploy. -/
def coolifyAfterApp (ctx : String) (cd : ClientData) (w : CoolifyWorld)
    (pre : List Call) : Except CoolifyError Unit × List Call :=
  match w.envPatch with
  | .error a => (.error (coolifyHandleError ctx (some a)), pre ++ [.coSetEnv (createEnvVars cd)])
  | .ok _ =>
    match w.trigger with
    | .error a =>
        (.error (coolifyHandleError ctx (some a)),
         pre ++ [.coSetEnv (createEnvVars cd), .coTrigger])
    | .ok _ => (.ok (), pre ++ [.coSetEnv (createEnvVars cd), .coTrigger])

/-- `CoolifyAPI.createDeployment`: validate static configuration, then
find-or-create the application by name, set environment, trigger deploy.
Returns the thrown/returned outcome and the trace of provider calls. -/
def createDeployment (cfg : CoolifyConfig) (subdomain : String) (cd : ClientData)
    (w : CoolifyWorld) : Except CoolifyError Unit × List Call :=
  let ctx := "Failed to create deployment"
  if !(present cfg.templateRepo) then
    (.error (coolifyHandleNonAxios ctx "GitHub repository URL is required"), [])
  else if !(present cfg.projectId) || !(present cfg.environmentId)
      || !(present cfg.serverId) then
    (.error (coolifyHandleNonAxios ctx
       "Coolify project ID, environment ID, and server ID are required but not provided"), [])
  else
    match findApplicationByName w.apps subdomain with
    | some _ => coolifyAfterApp ctx cd w [.coListApps]
    | none =>
      match w.createResp with
      | .error a => (.error (coolifyHandleError ctx (some a)), [.coListApps, .coCreateApp])
      | .ok none =>
          (.error (coolifyHandleNonAxios ctx "Application created but no ID returned"),
           [.coListApps, .coCreateApp])
      | .ok (some _) => coolifyAfterApp ctx cd w [.coListApps, .coCreateApp]

/-- `CoolifyAPI.deleteDeployment`: resolve the application by name; if
absent, throw `Application not found` (rethrown by `handleError` as
`UNKNOWN_ERROR`); otherwise DELETE it by uuid. -/
def deleteDeployment (subdomain : String) (apps : Except AxiosErr (List App))
    (del : Except AxiosErr Unit) : Except CoolifyError Unit :=
  let ctx := "Failed to delete deployment"
  match findApplicationByName apps subdomain with
  | none => .error (coolifyHandleNonAxios ctx "Application not found")
  | some _ =>
    match del with
    | .error a => .error (coolifyHandleError ctx (some a))
    | .ok _ => .ok ()

/-- The slice of the persisted client record the saga routes read. -/
structure Client where
  subdomain : String
  isDeployed : Bool
  data : ClientData
deriving DecidableEq

/-- Outcomes of the axios calls one `POST /:id/deploy` invocation makes:
the availability-check list, the record creation, the Coolify phase, and
the compensating `deleteSubdomainRecord` (its list and delete steps). -/
structure DeployWorld where
  dnsList : Except AxiosErr (List DnsRecord)
  dnsCreate : Except AxiosErr Unit
  co : CoolifyWorld
  compList : Except AxiosErr (List DnsRecord)
  compDelete : Except AxiosErr Unit
deriving DecidableEq

/-- Response of the deploy route: 400 already-deployed conflict, 500
`Failed to manage DNS record`, deployment failure carrying the
`CoolifyAPIError`, or 200 `Deployment successful`. -/
inductive DeployResponse
  | conflict
  | dnsPhaseFailed (e : CfError)
  | deployFailed (e : CoolifyError)
  | deployed
deriving DecidableEq

/-- What one deploy invocation produced: the HTTP response kind, the
persisted `isDeployed` flag, and the trace of provider calls issued. -/
structure RouteResult where
  response : DeployResponse
  isDeployed : Bool
  calls : List Call
deriving DecidableEq

/-- Calls issued by the compensating `deleteSubdomainRecord`: the list
request always, the delete-by-id only when a record was found. -/
def compensationCalls (w : DeployWorld) : List Call :=
  match w.compList with
  | .error _ => [.dnsCompList]
  | .ok recs => if recs.length > 0 then [.dnsCompList, .dnsCompDelete] else [.dnsCompList]

/-- Deployment phase of the deploy route: run
`coolify.createDeployment`; on success set `isDeployed = true`; on
failure run best-effort DNS compensation (outcome logged and discarded)
and return the original Coolify error. -/
def deployPhase (cfg : CoolifyConfig) (c : Client) (w : DeployWorld)
    (pre : List Call) : RouteResult :=
  match createDeployment cfg c.subdomain c.data w.co with
  | (.ok _, coCalls) => ⟨.deployed, true, pre ++ coCalls⟩
  | (.error e, coCalls) => ⟨.deployFailed e, false, pre ++ coCalls ++ compensationCalls w⟩

/-- `router.post('/:id/deploy')` after the client is loaded: reject when
already deployed; otherwise check DNS availability, create the record
only when the name is still free, then run the deployment phase. -/
def deployRoute (cfg : CoolifyConfig) (c : Client) (w : DeployWorld) : RouteResult :=
  if c.isDeployed then ⟨.conflict, c.isDeployed, []⟩
  else
    match checkSubdomainAvailability c.subdomain w.dnsList with
    | .error e => ⟨.dnsPhaseFailed e, false, [.dnsCheck]⟩
    | .ok available =>
      if available then
        match createSubdomainRecord c.subdomain w.dnsCreate with
        | .error e => ⟨.dnsPhaseFailed e, false, [.dnsCheck, .dnsCreateRec]⟩
        | .ok _ => deployPhase cfg c w [.dnsCheck, .dnsCreateRec]
      else deployPhase cfg c w [.dnsCheck]

/-- Outcomes of the axios calls one `POST /` (create client) makes. -/
structure CreateWorld where
  availList : Except AxiosErr (List DnsRecord)
  dnsCreate : Except AxiosErr Unit
  co : CoolifyWorld
deriving DecidableEq

/-- Response of the create-client route at the provider-relevant level:
500 on availability-check failure, 400 when the name is taken, else 201. -/
inductive CreateResponse
  | availCheckFailed
  | notAvailable
  | created
deriving DecidableEq

/-- Result of the create-client route: response kind, the `isDeployed`
flag of the saved client (`none` when no client was persisted), trace. -/
structure CreateResult where
  response : CreateResponse
  savedFlag : Option Bool
  calls : List Call
deriving DecidableEq

/-- `router.post('/')` (create client), from the availability check on:
on a free name the client is saved with `isDeployed = false`, the DNS
record creation is attempted with its error swallowed, and the Coolify
deployment is attempted; only its success sets `isDeployed = true`.
Either way the route answers 201. -/
def createClientRoute (cfg : CoolifyConfig) (subdomain : String) (cd : ClientData)
    (w : CreateWorld) : CreateResult :=
  match checkSubdomainAvailability subdomain w.availList with
  | .error _ => ⟨.availCheckFailed, none, [.dnsCheck]⟩
  | .ok false => ⟨.notAvailable, none, [.dnsCheck]⟩
  | .ok true =>
    match createDeployment cfg subdomain cd w.co with
    | (.ok _, coCalls) => ⟨.created, some true, [.dnsCheck, .dnsCreateRec] ++ coCalls⟩
    | (.error _, coCalls) => ⟨.created, some false, [.dnsCheck, .dnsCreateRec] ++ coCalls⟩

/-- Outcomes of the axios calls one `DELETE /:id/deploy` makes. -/
structure UndeployWorld where
  dnsList : Except AxiosErr (List DnsRecord)
  dnsDelete : Except AxiosErr Unit
  coApps : Except AxiosErr (List App)
  coDelete : Except AxiosErr Unit
deriving DecidableEq

/-- Response of the undeploy route: 200 full success, 207 with the
failed-phase messages, or 500 when both phases failed. -/
inductive UndeployResponse
  | fullSuccess
  | someFailed (errs : List String)
  | allFailed (errs : List String)
deriving DecidableEq

/-- Result of the undeploy route: response, persisted flag, trace. -/
structure UndeployResult where
  response : UndeployResponse
  isDeployed : Bool
  calls : List Call
deriving DecidableEq

/-- `router.delete('/:id/deploy')`: run the DNS-deletion phase and the
Coolify-deletion phase unconditionally, collecting an error message per
failed phase; advance the flag to `false` when fewer than two phases
failed; answer 200 / 207 / 500 by the number of errors. -/
def undeployRoute (c : Client) (w : UndeployWorld) : UndeployResult :=
  let dnsRes := deleteSubdomainRecord c.subdomain w.dnsList w.dnsDelete
  let coRes := deleteDeployment c.subdomain w.coApps w.coDelete
  let errs :=
    (match dnsRes with
     | .error _ => ["Failed to delete DNS record"]
     | .ok _ => ([] : List String))
    ++ (match coRes with
        | .error _ => ["Failed to delete Coolify deployment"]
        | .ok _ => ([] : List String))
  let flag := if errs.length < 2 then false else c.isDeployed
  let resp :=
    if errs.length = 0 then UndeployResponse.fullSuccess
    else if errs.length = 2 then UndeployResponse.allFailed errs
    else UndeployResponse.someFailed errs
  ⟨resp, flag, [.dnsDelPhase, .coDelPhase]⟩

/-- A fully configured Coolify environment. -/
def cfgEx : CoolifyConfig :=
  ⟨some "https://github.com/org/template", some "proj", some "env-1", some "srv-1"⟩

/-- A custom-HTML client payload whose raw HTML is `<b>hi</b>`. -/
def cdEx : ClientData :=
  ⟨"Acme", "a site", "[]", "{}", none, "custom-html",
   some [60, 98, 62, 104, 105, 60, 47, 98, 62]⟩

/-- A Coolify world in which every call succeeds and no application exists. -/
def coOkWorld : CoolifyWorld := ⟨.ok [], .ok (some "uuid-1"), .ok (), .ok ()⟩

/-- A 401 axios error. -/
def ax401 : AxiosErr := ⟨some 401, none, none, "Request failed with status code 401", none⟩

/-- A 403 axios error. -/
def ax403 : AxiosErr := ⟨some 403, none, none, "Request failed with status code 403", none⟩

/-- A 500 axios error with a provider message and body. -/
def ax500 : AxiosErr := ⟨some 500, some "upstream broke", some "upstream broke",
  "Request failed with status code 500", some "raw body"⟩

/-- C8: the DNS availability check returns available exactly when the
provider's filtered record list is empty — the logical negation of "at
least one matching record exists" — and two or more matching records are
reported unavailable. -/
theorem dns_availability_c8 :
    ∀ (all : List DnsRecord) (fqdn sub : String), sub ≠ "" →
      (checkSubdomainAvailability sub (Except.ok (listDnsRecords all fqdn)) = Except.ok true
         ↔ ¬ ∃ r ∈ all, r.name = fqdn ∧ r.rtype = "A") ∧
      (∀ recs : List DnsRecord, 2 ≤ recs.length →
         checkSubdomainAvailability sub (Except.ok recs) = Except.ok false) := by
  intro all fqdn sub hsub
  have hb : (sub == "") = false := beq_eq_false_iff_ne.mpr hsub
  constructor
  · simp only [checkSubdomainAvailability, hb, Bool.false_eq_true, if_false,
      Except.ok.injEq, listDnsRecords]
    constructor
    · intro h ⟨r, hr, hn, ht⟩
      have : (all.filter (fun r => r.name == fqdn && r.rtype == "A")).length = 0 := by
        simpa using h
      rw [List.length_eq_zero, List.filter_eq_nil_iff] at this
      exact this r hr (by simp [hn, ht])
    · intro h
      have : all.filter (fun r => r.name == fqdn && r.rtype == "A") = [] := by
        rw [List.filter_eq_nil_iff]
        intro r hr hcond
        exact h ⟨r, hr, by simpa using hcond⟩
      simp [this]
  · intro recs h2
    simp only [checkSubdomainAvailability, hb, Bool.false_eq_true, if_false, Except.ok.injEq]
    have : recs.length ≠ 0 := by omega
    simpa using this

/-- C8 witness: one matching record makes `acme` unavailable. -/
theorem dns_availability_c8_witness :
    (checkSubdomainAvailability "acme"
        (Except.ok (listDnsRecords [⟨"id1", "acme.example.com", "A"⟩] "acme.example.com"))
        = Except.ok true
      ↔ ¬ ∃ r ∈ [(⟨"id1", "acme.example.com", "A"⟩ : DnsRecord)],
          r.name = "acme.example.com" ∧ r.rtype = "A") ∧
    (∀ recs : List DnsRecord, 2 ≤ recs.length →
      checkSubdomainAvailability "acme" (Except.ok recs) = Except.ok false) :=
  dns_availability_c8 [⟨"id1", "acme.example.com", "A"⟩] "acme.example.com" "acme"
    (by decide)

/-- C3 counterexample: on a 401 the DNS adapter reports `UNAUTHORIZED`
while the deployment adapter reports `API_ERROR` — the two status
mappings are not identical. -/
theorem error_mapping_c3_counterexample :
    (cloudflareHandleError (some ax401)).code = "UNAUTHORIZED" ∧
    (coolifyHandleError "Failed to create deployment" (some ax401)).code = "API_ERROR" ∧
    ¬ (coolifyHandleError "Failed to create deployment" (some ax401)).code
        = (cloudflareHandleError (some ax401)).code := by
  refine ⟨rfl, rfl, ?_⟩
  decide

/-- C3 amended: the DNS adapter maps 401, 403, 404 and 429 to the
distinct kinds `UNAUTHORIZED`, `FORBIDDEN`, `NOT_FOUND` and `RATE_LIMIT`
and any other status to `API_ERROR` carrying the provider message and
status, while the deployment adapter maps every axios error uniformly to
`API_ERROR`, retaining the status and provider message. -/
theorem error_mapping_c3_amended :
    ∀ (a : AxiosErr) (ctx : String),
      ((a.status = some 401 → (cloudflareHandleError (some a)).code = "UNAUTHORIZED") ∧
       (a.status = some 403 → (cloudflareHandleError (some a)).code = "FORBIDDEN") ∧
       (a.status = some 404 → (cloudflareHandleError (some a)).code = "NOT_FOUND") ∧
       (a.status = some 429 → (cloudflareHandleError (some a)).code = "RATE_LIMIT") ∧
       (∀ s : Nat, a.status = some s → s ≠ 401 → s ≠ 403 → s ≠ 404 → s ≠ 429 →
         (cloudflareHandleError (some a)).code = "API_ERROR" ∧
         (cloudflareHandleError (some a)).status = some s)) ∧
      ((coolifyHandleError ctx (some a)).code = "API_ERROR" ∧
       (coolifyHandleError ctx (some a)).status = a.status) := by
  intro a ctx
  refine ⟨⟨?_, ?_, ?_, ?_, ?_⟩, rfl, rfl⟩
  · intro h; simp [cloudflareHandleError, h]
  · intro h; simp [cloudflareHandleError, h]
  · intro h; simp [cloudflareHandleError, h]
  · intro h; simp [cloudflareHandleError, h]
  · intro s hs h1 h2 h3 h4
    constructor <;> simp [cloudflareHandleError, hs, h1, h2, h3, h4]

/-- C3 amended witness: instantiated at a concrete 403 error. -/
theorem error_mapping_c3_amended_witness :
    (cloudflareHandleError (some ax403)).code = "FORBIDDEN" ∧
    (coolifyHandleError "Failed to get applications" (some ax403)).code = "API_ERROR" :=
  ⟨(error_mapping_c3_amended ax403 "Failed to get applications").1.2.1 rfl,
   (error_mapping_c3_amended ax403 "Failed to get applications").2.1⟩

/-- C9: deploying an already-deployed client is rejected as a conflict
with an empty provider-call trace and an unchanged flag. -/
theorem deploy_conflict_c9 :
    ∀ (cfg : CoolifyConfig) (c : Client) (w : DeployWorld), c.isDeployed = true →
      deployRoute cfg c w = ⟨DeployResponse.conflict, true, []⟩ := by
  intro cfg c w h
  simp [deployRoute, h]

/-- C9 witness: a concrete already-deployed client. -/
theorem deploy_conflict_c9_witness :
    deployRoute cfgEx ⟨"acme", true, cdEx⟩
        ⟨Except.ok [], Except.ok (), coOkWorld, Except.ok [], Except.ok ()⟩
      = ⟨DeployResponse.conflict, true, []⟩ :=
  deploy_conflict_c9 cfgEx ⟨"acme", true, cdEx⟩
    ⟨Except.ok [], Except.ok (), coOkWorld, Except.ok [], Except.ok ()⟩ rfl

/-- C5: in every undeploy invocation both phases are executed (the trace
always holds both), errors are aggregated, a single failure still moves
the flag to `false` and reports the failed phase, and a double failure
leaves the flag unchanged and reports both phases. -/
theorem undeploy_aggregate_c5 :
    ∀ (c : Client) (w : UndeployWorld),
      ((undeployRoute c w).calls = [Call.dnsDelPhase, Call.coDelPhase]) ∧
      (deleteSubdomainRecord c.subdomain w.dnsList w.dnsDelete = Except.ok () →
        deleteDeployment c.subdomain w.coApps w.coDelete = Except.ok () →
        (undeployRoute c w).response = UndeployResponse.fullSuccess ∧
        (undeployRoute c w).isDeployed = false) ∧
      (∀ e, deleteSubdomainRecord c.subdomain w.dnsList w.dnsDelete = Except.error e →
        deleteDeployment c.subdomain w.coApps w.coDelete = Except.ok () →
        (undeployRoute c w).response
          = UndeployResponse.someFailed ["Failed to delete DNS record"] ∧
        (undeployRoute c w).isDeployed = false) ∧
      (∀ e, deleteSubdomainRecord c.subdomain w.dnsList w.dnsDelete = Except.ok () →
        deleteDeployment c.subdomain w.coApps w.coDelete = Except.error e →
        (undeployRoute c w).response
          = UndeployResponse.someFailed ["Failed to delete Coolify deployment"] ∧
        (undeployRoute c w).isDeployed = false) ∧
      (∀ e1 e2, deleteSubdomainRecord c.subdomain w.dnsList w.dnsDelete = Except.error e1 →
        deleteDeployment c.subdomain w.coApps w.coDelete = Except.error e2 →
        (undeployRoute c w).response
          = UndeployResponse.allFailed
              ["Failed to delete DNS record", "Failed to delete Coolify deployment"] ∧
        (undeployRoute c w).isDeployed = c.isDeployed) := by
  intro c w
  refine ⟨rfl, ?_, ?_, ?_, ?_⟩
  · intro h1 h2; constructor <;> simp [undeployRoute, h1, h2]
  · intro e h1 h2; constructor <;> simp [undeployRoute, h1, h2]
  · intro e h1 h2; constructor <;> simp [undeployRoute, h1, h2]
  · intro e1 e2 h1 h2; constructor <;> simp [undeployRoute, h1, h2]

/-- C5 witness: DNS deletion succeeds (no record), application deletion
fails (no application): partial result, flag advanced. -/
theorem undeploy_aggregate_c5_witness :
    (undeployRoute ⟨"acme", true, cdEx⟩
        ⟨Except.ok [], Except.ok (), Except.ok [], Except.ok ()⟩).response
      = UndeployResponse.someFailed ["Failed to delete Coolify deployment"] ∧
    (undeployRoute ⟨"acme", true, cdEx⟩
        ⟨Except.ok [], Except.ok (), Except.ok [], Except.ok ()⟩).isDeployed = false :=
  (undeploy_aggregate_c5 ⟨"acme", true, cdEx⟩
      ⟨Except.ok [], Except.ok (), Except.ok [], Except.ok ()⟩).2.2.2.1
    (coolifyHandleNonAxios "Failed to delete deployment" "Application not found")
    (by decide) (by decide)

/-- C2 counterexample: a tenant with no DNS record and no application:
DNS deletion is a no-op success, but application deletion raises
`Application not found`, so the undeploy result is not a full success. -/
theorem undeploy_absent_c2_counterexample :
    deleteSubdomainRecord "beta" (Except.ok []) (Except.ok ()) = Except.ok () ∧
    deleteDeployment "beta" (Except.ok []) (Except.ok ())
      = Except.error
          (coolifyHandleNonAxios "Failed to delete deployment" "Application not found") ∧
    (undeployRoute ⟨"beta", true, cdEx⟩
        ⟨Except.ok [], Except.ok (), Except.ok [], Except.ok ()⟩).response
      ≠ UndeployResponse.fullSuccess := by
  refine ⟨by decide, by decide, by decide⟩

/-- C2 amended: deleting an absent DNS record is a no-op success, but
deleting an absent application raises an error, so undeploying a tenant
with neither resource yields a partial (207) result listing the
deployment-deletion failure — the flag is still advanced to `false`. -/
theorem undeploy_absent_c2_amended :
    ∀ (c : Client) (w : UndeployWorld), c.subdomain ≠ "" →
      w.dnsList = Except.ok [] →
      findApplicationByName w.coApps c.subdomain = none →
      deleteSubdomainRecord c.subdomain w.dnsList w.dnsDelete = Except.ok () ∧
      deleteDeployment c.subdomain w.coApps w.coDelete
        = Except.error
            (coolifyHandleNonAxios "Failed to delete deployment" "Application not found") ∧
      (undeployRoute c w).response
        = UndeployResponse.someFailed ["Failed to delete Coolify deployment"] ∧
      (undeployRoute c w).isDeployed = false := by
  intro c w hsub hdns happ
  have hb : (c.subdomain == "") = false := beq_eq_false_iff_ne.mpr hsub
  have h1 : deleteSubdomainRecord c.subdomain w.dnsList w.dnsDelete = Except.ok () := by
    simp [deleteSubdomainRecord, hb, hdns]
  have h2 : deleteDeployment c.subdomain w.coApps w.coDelete
      = Except.error
          (coolifyHandleNonAxios "Failed to delete deployment" "Application not found") := by
    simp [deleteDeployment, happ]
  refine ⟨h1, h2, ?_, ?_⟩ <;> simp [undeployRoute, h1, h2]

/-- C2 amended witness: concrete empty worlds. -/
theorem undeploy_absent_c2_amended_witness :
    deleteSubdomainRecord "gamma" (Except.ok []) (Except.ok ()) = Except.ok () ∧
    deleteDeployment "gamma" (Except.ok []) (Except.ok ())
      = Except.error
          (coolifyHandleNonAxios "Failed to delete deployment" "Application not found") ∧
    (undeployRoute ⟨"gamma", true, cdEx⟩
        ⟨Except.ok [], Except.ok (), Except.ok [], Except.ok ()⟩).response
      = UndeployResponse.someFailed ["Failed to delete Coolify deployment"] ∧
    (undeployRoute ⟨"gamma", true, cdEx⟩
        ⟨Except.ok [], Except.ok (), Except.ok [], Except.ok ()⟩).isDeployed = false :=
  undeploy_absent_c2_amended ⟨"gamma", true, cdEx⟩
    ⟨Except.ok [], Except.ok (), Except.ok [], Except.ok ()⟩
    (by decide) rfl rfl

/-- The compensation trace always includes the DNS list request. -/
theorem mem_compensationCalls (w : DeployWorld) :
    Call.dnsCompList ∈ compensationCalls w := by
  cases hcl : w.compList with
  | error a => simp [compensationCalls, hcl]
  | ok recs =>
    simp only [compensationCalls, hcl]
    split <;> simp

/-- Trace facts about `createDeployment`: it never issues a DNS-record
creation, and on success its trace contains the bulk env replace (with
exactly the constructed variable set) and the deploy trigger. -/
theorem createDeployment_trace (cfg : CoolifyConfig) (sd : String) (cd : ClientData)
    (w : CoolifyWorld) :
    Call.dnsCreateRec ∉ (createDeployment cfg sd cd w).2 ∧
    ((createDeployment cfg sd cd w).1 = Except.ok () →
      Call.coSetEnv (createEnvVars cd) ∈ (createDeployment cfg sd cd w).2 ∧
      Call.coTrigger ∈ (createDeployment cfg sd cd w).2) := by
  unfold createDeployment coolifyAfterApp
  repeat' split
  all_goals simp_all

/-- On a failed `createDeployment` the deploy phase returns exactly the
original Coolify error, leaves the flag at `false`, and appends the
compensation trace. -/
theorem deployPhase_error (cfg : CoolifyConfig) (c : Client) (w : DeployWorld)
    (pre : List Call) (e : CoolifyError)
    (h : (createDeployment cfg c.subdomain c.data w.co).1 = Except.error e) :
    (deployPhase cfg c w pre).response = DeployResponse.deployFailed e ∧
    (deployPhase cfg c w pre).isDeployed = false ∧
    (deployPhase cfg c w pre).calls
      = pre ++ (createDeployment cfg c.subdomain c.data w.co).2 ++ compensationCalls w := by
  unfold deployPhase
  rcases hcd : createDeployment cfg c.subdomain c.data w.co with ⟨res, coCalls⟩
  rw [hcd] at h
  simp at h
  subst h
  simp

/-- On a successful `createDeployment` the deploy phase reports
`deployed`, sets the flag, and issues no compensation. -/
theorem deployPhase_ok (cfg : CoolifyConfig) (c : Client) (w : DeployWorld)
    (pre : List Call)
    (h : (createDeployment cfg c.subdomain c.data w.co).1 = Except.ok ()) :
    deployPhase cfg c w pre
      = ⟨DeployResponse.deployed, true, pre ++ (createDeployment cfg c.subdomain c.data w.co).2⟩ := by
  unfold deployPhase
  rcases hcd : createDeployment cfg c.subdomain c.data w.co with ⟨res, coCalls⟩
  rw [hcd] at h
  simp at h
  subst h
  simp

/-- The DNS phase of one deploy invocation succeeded: the availability
check returned, and if the name was free the record creation succeeded. -/
def dnsPhaseOk (c : Client) (w : DeployWorld) : Prop :=
  ∃ avail, checkSubdomainAvailability c.subdomain w.dnsList = Except.ok avail ∧
    (avail = true → createSubdomainRecord c.subdomain w.dnsCreate = Except.ok ())

/-- C4: when the DNS phase succeeded and the deployment phase fails,
compensation is attempted (the compensating DNS list call is in the
trace), the original deployment error is the one returned, and the flag
stays `false` — for every compensation outcome, since `w.compList` and
`w.compDelete` are universally quantified and unconstrained. -/
theorem deploy_compensation_c4 :
    ∀ (cfg : CoolifyConfig) (c : Client) (w : DeployWorld) (e : CoolifyError),
      c.isDeployed = false → dnsPhaseOk c w →
      (createDeployment cfg c.subdomain c.data w.co).1 = Except.error e →
      (deployRoute cfg c w).response = DeployResponse.deployFailed e ∧
      (deployRoute cfg c w).isDeployed = false ∧
      Call.dnsCompList ∈ (deployRoute cfg c w).calls := by
  intro cfg c w e hflag hdns herr
  obtain ⟨avail, hav, hcr⟩ := hdns
  have hmem := mem_compensationCalls w
  obtain ⟨hr, hf, hc⟩ := deployPhase_error cfg c w [Call.dnsCheck] e herr
  obtain ⟨hr2, hf2, hc2⟩ := deployPhase_error cfg c w [Call.dnsCheck, Call.dnsCreateRec] e herr
  cases avail with
  | false =>
    have : deployRoute cfg c w = deployPhase cfg c w [Call.dnsCheck] := by
      simp [deployRoute, hflag, hav]
    rw [this, hc]
    exact ⟨hr, hf, by simp [hmem]⟩
  | true =>
    have : deployRoute cfg c w = deployPhase cfg c w [Call.dnsCheck, Call.dnsCreateRec] := by
      simp [deployRoute, hflag, hav, hcr rfl]
    rw [this, hc2]
    exact ⟨hr2, hf2, by simp [hmem]⟩

/-- C4 witness: env patching fails with a 500 and the compensating DNS
delete itself fails; the returned error is still the Coolify one. -/
theorem deploy_compensation_c4_witness :
    (deployRoute cfgEx ⟨"acme", false, cdEx⟩
        ⟨Except.ok [], Except.ok (),
         ⟨Except.ok [], Except.ok (some "uuid-1"), Except.error ax500, Except.ok ()⟩,
         Except.ok [⟨"rid", "acme.example.com", "A"⟩], Except.error ax500⟩).response
      = DeployResponse.deployFailed
          (coolifyHandleError "Failed to create deployment" (some ax500)) ∧
    (deployRoute cfgEx ⟨"acme", false, cdEx⟩
        ⟨Except.ok [], Except.ok (),
         ⟨Except.ok [], Except.ok (some "uuid-1"), Except.error ax500, Except.ok ()⟩,
         Except.ok [⟨"rid", "acme.example.com", "A"⟩], Except.error ax500⟩).isDeployed = false ∧
    Call.dnsCompList ∈ (deployRoute cfgEx ⟨"acme", false, cdEx⟩
        ⟨Except.ok [], Except.ok (),
         ⟨Except.ok [], Except.ok (some "uuid-1"), Except.error ax500, Except.ok ()⟩,
         Except.ok [⟨"rid", "acme.example.com", "A"⟩], Except.error ax500⟩).calls :=
  deploy_compensation_c4 cfgEx ⟨"acme", false, cdEx⟩
    ⟨Except.ok [], Except.ok (),
     ⟨Except.ok [], Except.ok (some "uuid-1"), Except.error ax500, Except.ok ()⟩,
     Except.ok [⟨"rid", "acme.example.com", "A"⟩], Except.error ax500⟩
    (coolifyHandleError "Failed to create deployment" (some ax500))
    rfl ⟨true, rfl, fun _ => rfl⟩ rfl

/-- C7: when the DNS record already exists (non-empty filtered list, so
the availability check reports unavailable) the deploy route does not
fail and does not create a DNS record: it proceeds to the deployment
phase, whose success (find-or-create, bulk env set, trigger) yields
`deployed` with the flag set. -/
theorem deploy_dns_exists_c7 :
    ∀ (cfg : CoolifyConfig) (c : Client) (w : DeployWorld) (recs : List DnsRecord),
      c.isDeployed = false → c.subdomain ≠ "" →
      w.dnsList = Except.ok recs → recs ≠ [] →
      (createDeployment cfg c.subdomain c.data w.co).1 = Except.ok () →
      (deployRoute cfg c w).response = DeployResponse.deployed ∧
      (deployRoute cfg c w).isDeployed = true ∧
      Call.dnsCreateRec ∉ (deployRoute cfg c w).calls ∧
      Call.coSetEnv (createEnvVars c.data) ∈ (deployRoute cfg c w).calls ∧
      Call.coTrigger ∈ (deployRoute cfg c w).calls := by
  intro cfg c w recs hflag hsub hdns hne hok
  have hb : (c.subdomain == "") = false := beq_eq_false_iff_ne.mpr hsub
  have hlen : (recs.length == 0) = false := by
    have : recs.length ≠ 0 := by
      intro h0
      exact hne (List.length_eq_zero.mp h0)
    simpa using this
  have hav : checkSubdomainAvailability c.subdomain w.dnsList = Except.ok false := by
    simp [checkSubdomainAvailability, hb, hdns, hlen]
  have hroute : deployRoute cfg c w = deployPhase cfg c w [Call.dnsCheck] := by
    simp [deployRoute, hflag, hav]
  obtain ⟨hnocreate, hmems⟩ := createDeployment_trace cfg c.subdomain c.data w.co
  obtain ⟨hset, htrig⟩ := hmems hok
  rw [hroute, deployPhase_ok cfg c w [Call.dnsCheck] hok]
  refine ⟨rfl, rfl, ?_, ?_, ?_⟩
  · simp only [List.mem_append]
    rintro (h | h)
    · simp at h
    · exact hnocreate h
  · simp [hset]
  · simp [htrig]

/-- C7 witness: a record for `acme` exists, no application exists, every
Coolify call succeeds. -/
theorem deploy_dns_exists_c7_witness :
    (deployRoute cfgEx ⟨"acme", false, cdEx⟩
        ⟨Except.ok [⟨"rid", "acme.example.com", "A"⟩], Except.ok (), coOkWorld,
         Except.ok [], Except.ok ()⟩).response = DeployResponse.deployed ∧
    (deployRoute cfgEx ⟨"acme", false, cdEx⟩
        ⟨Except.ok [⟨"rid", "acme.example.com", "A"⟩], Except.ok (), coOkWorld,
         Except.ok [], Except.ok ()⟩).isDeployed = true ∧
    Call.dnsCreateRec ∉ (deployRoute cfgEx ⟨"acme", false, cdEx⟩
        ⟨Except.ok [⟨"rid", "acme.example.com", "A"⟩], Except.ok (), coOkWorld,
         Except.ok [], Except.ok ()⟩).calls ∧
    Call.coSetEnv (createEnvVars cdEx) ∈ (deployRoute cfgEx ⟨"acme", false, cdEx⟩
        ⟨Except.ok [⟨"rid", "acme.example.com", "A"⟩], Except.ok (), coOkWorld,
         Except.ok [], Except.ok ()⟩).calls ∧
    Call.coTrigger ∈ (deployRoute cfgEx ⟨"acme", false, cdEx⟩
        ⟨Except.ok [⟨"rid", "acme.example.com", "A"⟩], Except.ok (), coOkWorld,
         Except.ok [], Except.ok ()⟩).calls :=
  deploy_dns_exists_c7 cfgEx ⟨"acme", false, cdEx⟩
    ⟨Except.ok [⟨"rid", "acme.example.com", "A"⟩], Except.ok (), coOkWorld,
     Except.ok [], Except.ok ()⟩
    [⟨"rid", "acme.example.com", "A"⟩] rfl (by decide) rfl (by decide) (by decide)

/-- C1 amended: for the deploy route the invariant holds — the flag ends
`true` only when the DNS phase and the deployment phase both succeeded —
but in the create-client route the DNS-record creation error is
swallowed, so the saved flag is `true` exactly when the availability
pre-check passed and the deployment phase succeeded, regardless of the
DNS-record creation outcome. -/
theorem deployed_flag_c1_amended :
    ∀ (cfg : CoolifyConfig),
      (∀ (c : Client) (w : DeployWorld), c.isDeployed = false →
        (deployRoute cfg c w).isDeployed = true →
        dnsPhaseOk c w ∧ (createDeployment cfg c.subdomain c.data w.co).1 = Except.ok ()) ∧
      (∀ (sub : String) (cd : ClientData) (cw : CreateWorld),
        (createClientRoute cfg sub cd cw).savedFlag = some true ↔
          (checkSubdomainAvailability sub cw.availList = Except.ok true ∧
           (createDeployment cfg sub cd cw.co).1 = Except.ok ())) := by
  intro cfg
  constructor
  · intro c w hflag hdep
    rcases hcd : createDeployment cfg c.subdomain c.data w.co with ⟨res, coCalls⟩
    have hphase : ∀ pre, (deployPhase cfg c w pre).isDeployed = true →
        res = Except.ok () := by
      intro pre h
      unfold deployPhase at h
      rw [hcd] at h
      cases res with
      | ok u => rfl
      | error e => simp at h
    cases hav : checkSubdomainAvailability c.subdomain w.dnsList with
    | error e =>
      rw [deployRoute, if_neg (by simp [hflag]), hav] at hdep
      simp at hdep
    | ok avail =>
      rw [deployRoute, if_neg (by simp [hflag]), hav] at hdep
      cases avail with
      | false =>
        simp only [Bool.false_eq_true, if_false] at hdep
        refine ⟨⟨false, hav, by simp⟩, ?_⟩
        simpa using hphase _ hdep
      | true =>
        simp only [if_true] at hdep
        cases hcr : createSubdomainRecord c.subdomain w.dnsCreate with
        | error e => rw [hcr] at hdep; simp at hdep
        | ok u =>
          rw [hcr] at hdep
          simp only [] at hdep
          refine ⟨⟨true, hav, fun _ => by rw [hcr]⟩, ?_⟩
          simpa using hphase _ hdep
  · intro sub cd cw
    cases hav : checkSubdomainAvailability sub cw.availList with
    | error e =>
      simp [createClientRoute, hav]
    | ok avail =>
      cases avail with
      | false => simp [createClientRoute, hav]
      | true =>
        rcases hcd : createDeployment cfg sub cd cw.co with ⟨res, coCalls⟩
        cases res with
        | ok u => simp [createClientRoute, hav, hcd]
        | error e => simp [createClientRoute, hav, hcd]

/-- C1 counterexample: in the create-client route, the DNS-record
creation fails with a 403 while the Coolify deployment succeeds, and the
client is nevertheless saved with its flag at `true`. -/
theorem deployed_flag_c1_counterexample :
    createSubdomainRecord "acme" (Except.error ax403)
      = Except.error (cloudflareHandleError (some ax403)) ∧
    (createDeployment cfgEx "acme" cdEx coOkWorld).1 = Except.ok () ∧
    (createClientRoute cfgEx "acme" cdEx
        ⟨Except.ok [], Except.error ax403, coOkWorld⟩).savedFlag = some true ∧
    Call.dnsCreateRec ∈ (createClientRoute cfgEx "acme" cdEx
        ⟨Except.ok [], Except.error ax403, coOkWorld⟩).calls := by
  refine ⟨rfl, by decide, by decide, by decide⟩

/-- C1 amended witness: a fresh client, a deploy world where everything
succeeds, instantiating the deploy-route direction. -/
theorem deployed_flag_c1_amended_witness :
    dnsPhaseOk ⟨"acme", false, cdEx⟩
        ⟨Except.ok [], Except.ok (), coOkWorld, Except.ok [], Except.ok ()⟩ ∧
    (createDeployment cfgEx "acme" cdEx coOkWorld).1 = Except.ok () :=
  (deployed_flag_c1_amended cfgEx).1 ⟨"acme", false, cdEx⟩
    ⟨Except.ok [], Except.ok (), coOkWorld, Except.ok [], Except.ok ()⟩
    rfl (by decide)

/-- A nonempty trimmed byte string comes from a nonempty byte string. -/
theorem jsTrim_ne_empty (h : List Nat) (ht : (jsTrim h).isEmpty = false) :
    h.isEmpty = false := by
  cases h with
  | nil => simp [jsTrim] at ht
  | cons a t => simp

/-- C6: the constructed environment set carries the serialized payload
under `CLIENT_DATA` and the identical value under the public
`NEXT_PUBLIC_CLIENT_DATA` key, always contains `NODE_ENV=production`,
the serialized payload has no `htmlCode` field, and present raw HTML is
transmitted only as the separate base64 variable, whose value decodes
back to the original bytes exactly; the construction is the same in
`createDeployment` and `updateDeployment`. -/
theorem env_encoding_c6 :
    ∀ cd : ClientData,
      createEnvVars cd = updateEnvVars cd ∧
      EnvVar.mk "CLIENT_DATA" (EnvValue.json (clientDataForEnv cd)) true
        ∈ createEnvVars cd ∧
      EnvVar.mk "NEXT_PUBLIC_CLIENT_DATA" (EnvValue.json (clientDataForEnv cd)) true
        ∈ createEnvVars cd ∧
      EnvVar.mk "NODE_ENV" (EnvValue.str "production") true ∈ createEnvVars cd ∧
      "htmlCode" ∉ (clientDataForEnv cd).map Prod.fst ∧
      (∀ h : List Nat, cd.htmlCode = some h → (∀ b ∈ h, b < 256) →
        (jsTrim h).isEmpty = false →
        EnvVar.mk "NEXT_PUBLIC_CUSTOM_HTML_BASE64" (EnvValue.b64 (base64Encode h)) true
          ∈ createEnvVars cd ∧
        base64Decode (base64Encode h) = some h) := by
  intro cd
  refine ⟨rfl, by simp [createEnvVars], by simp [createEnvVars], by simp [createEnvVars],
    ?_, ?_⟩
  · cases hh : cd.htmlCode <;>
      simp [clientDataForEnv, clientObjWithLogo, hh, List.filter]
  · intro h hh hbytes ht
    have hne := jsTrim_ne_empty h ht
    refine ⟨?_, base64_roundtrip h hbytes⟩
    simp [createEnvVars, hh, hne, ht]

/-- C6 witness: the raw HTML `<b>hi</b>` appears base64-encoded and
decodes back exactly. -/
theorem env_encoding_c6_witness :
    EnvVar.mk "NEXT_PUBLIC_CUSTOM_HTML_BASE64"
        (EnvValue.b64 (base64Encode [60, 98, 62, 104, 105, 60, 47, 98, 62])) true
      ∈ createEnvVars cdEx ∧
    base64Decode (base64Encode [60, 98, 62, 104, 105, 60, 47, 98, 62])
      = some [60, 98, 62, 104, 105, 60, 47, 98, 62] :=
  (env_encoding_c6 cdEx).2.2.2.2.2 [60, 98, 62, 104, 105, 60, 47, 98, 62]
    rfl (by decide) (by decide)

/-- Does the environment set carry the base64 raw-HTML variable? -/
def hasB64Key (evs : List EnvVar) : Bool :=
  evs.any (fun ev => ev.key == "NEXT_PUBLIC_CUSTOM_HTML_BASE64")

/-- C10: the base64 raw-HTML variable is present iff `htmlCode` is a
string that is non-empty after trimming; `deploymentType` has no
influence on its presence; and the guard is the same in
`createDeployment` and `updateDeployment`. -/
theorem htmlcode_guard_c10 :
    ∀ cd : ClientData,
      createEnvVars cd = updateEnvVars cd ∧
      (hasB64Key (createEnvVars cd) = true ↔
        ∃ h, cd.htmlCode = some h ∧ (jsTrim h).isEmpty = false) ∧
      (∀ dt : String,
        hasB64Key (createEnvVars { cd with deploymentType := dt })
          = hasB64Key (createEnvVars cd)) := by
  intro cd
  refine ⟨rfl, ?_, ?_⟩
  · cases hh : cd.htmlCode with
    | none => simp [createEnvVars, hasB64Key, hh]
    | some h =>
      by_cases hcond : (!h.isEmpty && !(jsTrim h).isEmpty) = true
      · have hkey : hasB64Key (createEnvVars cd) = true := by
          simp [createEnvVars, hasB64Key, hh, hcond]
        rw [hkey]
        simp only [true_iff]
        refine ⟨h, rfl, ?_⟩
        simp only [Bool.and_eq_true, Bool.not_eq_true'] at hcond
        exact hcond.2
      · rw [Bool.not_eq_true] at hcond
        have hkey : hasB64Key (createEnvVars cd) = false := by
          simp [createEnvVars, hasB64Key, hh, hcond]
        rw [hkey]
        constructor
        · intro hfalse
          exact absurd hfalse (by simp)
        · rintro ⟨h2, hh2, ht⟩
          have heq : h2 = h := (Option.some.inj hh2).symm
          subst heq
          have hne := jsTrim_ne_empty h2 ht
          exfalso
          rw [show (!h2.isEmpty && !(jsTrim h2).isEmpty) = true by simp [hne, ht]] at hcond
          exact absurd hcond (by simp)
  · intro dt
    cases cd with
    | mk n d l cz lg dt0 hc =>
      cases hc <;> rfl

/-- C10 witness: whitespace-only HTML under `custom-html` yields no
base64 variable; non-empty HTML under `template` still yields one. -/
theorem htmlcode_guard_c10_witness :
    hasB64Key (createEnvVars ⟨"Ws", "", "[]", "{}", none, "custom-html", some [32, 32]⟩)
      = false ∧
    hasB64Key (createEnvVars
        ⟨"Tm", "", "[]", "{}", none, "template", some [60, 98, 62, 104, 105, 60, 47, 98, 62]⟩)
      = true :=
  ⟨by decide,
   (htmlcode_guard_c10
      ⟨"Tm", "", "[]", "{}", none, "template",
       some [60, 98, 62, 104, 105, 60, 47, 98, 62]⟩).2.1.mpr
     ⟨[60, 98, 62, 104, 105, 60, 47, 98, 62], rfl, by decide⟩⟩
